import Mathlib

/-!
Shallow embedding of the ICT analytical pipeline (src/index.tsx): swing-structure
detection, fair-value-gap detection, impulse-zone (order-block) detection with its
lifecycle state machine, the confluence scorer / signal generator, the backtest
simulator, and the daily performance aggregator.  Prices are modelled as rationals,
timestamps as integers (seconds).  JS quirks that matter are embedded explicitly:
the `|| 1` fallback on the mean body size applies to the whole quotient, the
`?.priceLow || swingLow` access falls back when the field is zero, and array
`find` returns the first match in storage order.
-/

-- ## Data model (src/index.tsx lines 22-100)

inductive Direction where
  | Bullish
  | Bearish
  deriving DecidableEq

inductive SessionType where
  | ASIA
  | LONDON
  | NEW_YORK
  | NONE
  deriving DecidableEq

inductive PO3 where
  | ACCUMULATION
  | MANIPULATION
  | DISTRIBUTION
  | NONE
  deriving DecidableEq

inductive StructKind where
  | HH
  | HL
  | LH
  | LL
  deriving DecidableEq

inductive OBSubtype where
  | Standard
  | Breaker
  | Swing
  deriving DecidableEq

inductive Side where
  | LONG
  | SHORT
  deriving DecidableEq

inductive BTResult where
  | WIN
  | LOSS
  | PENDING
  deriving DecidableEq

inductive TradingStyle where
  | SCALP
  | DAY_TRADE
  deriving DecidableEq

structure CandleData where
  time : Int
  open_ : ℚ
  high : ℚ
  low : ℚ
  close : ℚ
  deriving DecidableEq

structure StructurePoint where
  time : Int
  price : ℚ
  type : StructKind
  direction : Direction
  deriving DecidableEq

structure FVG where
  id : String
  time : Int
  priceHigh : ℚ
  priceLow : ℚ
  direction : Direction
  mitigated : Bool
  isSilverBullet : Bool
  deriving DecidableEq

structure OrderBlock where
  id : String
  time : Int
  priceHigh : ℚ
  priceLow : ℚ
  direction : Direction
  mitigated : Bool
  subtype : OBSubtype
  deriving DecidableEq

structure EntrySignal where
  time : Int
  type : Side
  price : ℚ
  score : Nat
  confluences : List String
  sl : ℚ
  tp : ℚ
  winProbability : Nat
  tradingStyle : TradingStyle
  po3Phase : PO3
  backtestResult : Option BTResult
  backtestPnL : Option Int
  deriving DecidableEq

structure BacktestStats where
  totalTrades : Nat
  wins : Nat
  losses : Nat
  winRate : ℚ
  netPnL : Int
  profitFactor : ℚ
  maxDrawdown : Int
  equityCurve : List Int
  deriving DecidableEq

structure DailyStat where
  date : Nat
  totalGain : Int
  totalLoss : Int
  netPnL : Int
  tradeCount : Nat
  trades : List EntrySignal
  deriving DecidableEq

/-- Total indexing helper: bars out of range read as a zeroed candle (the
embedding only indexes in range, mirroring the TS array accesses). -/
def defaultCandle : CandleData := ⟨0, 0, 0, 0, 0⟩

def nth (data : List CandleData) (i : Nat) : CandleData :=
  data.getD i defaultCandle

-- ## Utils (src/index.tsx lines 104-120)

/-- UTC hour of an epoch-second timestamp, as `new Date(t*1000).getUTCHours()`. -/
def getUTCHours (t : Int) : Int :=
  (t.fdiv 3600).emod 24

def getSession (hour : Int) : SessionType :=
  if 0 ≤ hour ∧ hour < 8 then SessionType.ASIA
  else if 7 ≤ hour ∧ hour < 16 then SessionType.LONDON
  else if 12 ≤ hour ∧ hour < 21 then SessionType.NEW_YORK
  else SessionType.NONE

def determinePO3 (candle : CandleData) (session : SessionType) : PO3 :=
  if session = SessionType.ASIA then PO3.ACCUMULATION
  else if session = SessionType.LONDON ∨ session = SessionType.NEW_YORK then
    let body := |candle.close - candle.open_|
    let range := candle.high - candle.low
    if body > range * (6/10) then PO3.DISTRIBUTION else PO3.MANIPULATION
  else PO3.NONE

-- ## Swing Structure Detector (src/index.tsx lines 124-177)

structure PivotPt where
  index : Nat
  price : ℚ
  isHigh : Bool
  deriving DecidableEq

def isPivotHigh (data : List CandleData) (w i : Nat) : Bool :=
  (List.range' 1 w).all fun j =>
    decide ((nth data (i - j)).high < (nth data i).high) &&
    decide ((nth data (i + j)).high < (nth data i).high)

def isPivotLow (data : List CandleData) (w i : Nat) : Bool :=
  (List.range' 1 w).all fun j =>
    decide ((nth data i).low < (nth data (i - j)).low) &&
    decide ((nth data i).low < (nth data (i + j)).low)

def pivotHighs (data : List CandleData) (w : Nat) : List PivotPt :=
  ((List.range data.length).filter fun i =>
    decide (w ≤ i) && decide (i + w < data.length) && isPivotHigh data w i).map
    fun i => ⟨i, (nth data i).high, true⟩

def pivotLows (data : List CandleData) (w : Nat) : List PivotPt :=
  ((List.range data.length).filter fun i =>
    decide (w ≤ i) && decide (i + w < data.length) && isPivotLow data w i).map
    fun i => ⟨i, (nth data i).low, false⟩

/-- All pivots merged and stably sorted by index (the TS spread + `sort`; the
JS sort is stable, and a stable insertion sort realizes the same ordering). -/
def allPivots (data : List CandleData) (w : Nat) : List PivotPt :=
  (pivotHighs data w ++ pivotLows data w).insertionSort fun a b => a.index ≤ b.index

structure StructState where
  lastHigh : Option PivotPt
  lastLow : Option PivotPt
  points : List StructurePoint
  deriving DecidableEq

def structStep (data : List CandleData) (st : StructState) (p : PivotPt) : StructState :=
  let candle := nth data p.index
  if p.isHigh then
    match st.lastHigh with
    | none => { st with lastHigh := some p }
    | some lh =>
      let pt : StructurePoint :=
        if p.price > lh.price then ⟨candle.time, p.price, StructKind.HH, Direction.Bearish⟩
        else ⟨candle.time, p.price, StructKind.LH, Direction.Bearish⟩
      { st with lastHigh := some p, points := st.points ++ [pt] }
  else
    match st.lastLow with
    | none => { st with lastLow := some p }
    | some ll =>
      let pt : StructurePoint :=
        if p.price < ll.price then ⟨candle.time, p.price, StructKind.LL, Direction.Bullish⟩
        else ⟨candle.time, p.price, StructKind.HL, Direction.Bullish⟩
      { st with lastLow := some p, points := st.points ++ [pt] }

/-- `detectStructure` of the source: note the trackers are seeded with
`pivotHighs[0]` / `pivotLows[0]` *before* the merged scan begins. -/
def detectStructure (data : List CandleData) (swingLength : Nat) : List StructurePoint :=
  let phs := pivotHighs data swingLength
  let pls := pivotLows data swingLength
  let init : StructState := ⟨phs.head?, pls.head?, []⟩
  ((allPivots data swingLength).foldl (structStep data) init).points

-- ## Fair-Value-Gap Detector (src/index.tsx lines 179-229)

def isSilverBulletHour (h : Int) : Bool :=
  decide (h = 14) || decide (h = 9) || decide (h = 3)

def bullGapAt (data : List CandleData) (i : Nat) : Option FVG :=
  let c1 := nth data (i - 2)
  let c2 := nth data (i - 1)
  let c3 := nth data i
  if c1.high < c3.low then
    some ⟨"fvg-bull-" ++ toString c2.time, c2.time, c3.low, c1.high, Direction.Bullish,
          false, isSilverBulletHour (getUTCHours c2.time)⟩
  else none

def bearGapAt (data : List CandleData) (i : Nat) : Option FVG :=
  let c1 := nth data (i - 2)
  let c2 := nth data (i - 1)
  let c3 := nth data i
  if c1.low > c3.high then
    some ⟨"fvg-bear-" ++ toString c2.time, c2.time, c1.low, c3.high, Direction.Bearish,
          false, isSilverBulletHour (getUTCHours c2.time)⟩
  else none

def fvgIndices (data : List CandleData) : List Nat :=
  (List.range data.length).filter fun i => decide (2 ≤ i)

def rawFVGs (data : List CandleData) : List FVG :=
  (fvgIndices data).flatMap fun i => (bullGapAt data i).toList ++ (bearGapAt data i).toList

/-- One later bar trading through the far boundary of the gap. -/
def mitCond (f : FVG) (c : CandleData) : Bool :=
  (decide (f.direction = Direction.Bullish) && decide (c.low < f.priceLow)) ||
  (decide (f.direction = Direction.Bearish) && decide (c.high > f.priceHigh))

def fvgMitigated (data : List CandleData) (f : FVG) : Bool :=
  data.any fun c => decide (f.time < c.time) && mitCond f c

def detectFVG (data : List CandleData) : List FVG :=
  (rawFVGs data).filter fun f => ! fvgMitigated data f

-- ## Impulse-Zone (Order Block) Detector (src/index.tsx lines 231-291)

def bodySizes (data : List CandleData) : List ℚ :=
  (data.drop (data.length - 100)).map fun d => |d.close - d.open_|

def bodySum (data : List CandleData) : ℚ :=
  (bodySizes data).sum

def bodyLen (data : List CandleData) : Nat :=
  (bodySizes data).length

/-- The TS `bodySizes.reduce(...) / bodySizes.length || 1`: the `|| 1` applies to
the whole quotient, replacing it by 1 when it is NaN (empty slice) or 0. -/
def meanBody (data : List CandleData) : ℚ :=
  if bodyLen data = 0 then 1
  else if bodySum data / (bodyLen data : ℚ) = 0 then 1
  else bodySum data / (bodyLen data : ℚ)

def impulseThreshold (data : List CandleData) (thresholdMult : ℚ) : ℚ :=
  meanBody data * thresholdMult

def obIndices (data : List CandleData) : List Nat :=
  (List.range data.length).filter fun i => decide (2 ≤ i) && decide (i + 3 < data.length)

def obCandidatesAt (data : List CandleData) (thr : ℚ) (i : Nat) : List OrderBlock :=
  let candle := nth data i
  let nextCandle := nth data (i + 1)
  let moveUp := nextCandle.close - nextCandle.open_ > thr
  let moveDown := nextCandle.open_ - nextCandle.close > thr
  (if candle.close < candle.open_ ∧ moveUp ∧ nextCandle.close > candle.high then
    [⟨"ob-bull-" ++ toString candle.time, candle.time, candle.high, candle.low,
      Direction.Bullish, false, OBSubtype.Standard⟩]
   else []) ++
  (if candle.close > candle.open_ ∧ moveDown ∧ nextCandle.close < candle.low then
    [⟨"ob-bear-" ++ toString candle.time, candle.time, candle.high, candle.low,
      Direction.Bearish, false, OBSubtype.Standard⟩]
   else [])

/-- One step of the lifecycle scan over one later bar (the body of the inner
`for k` loop at lines 274-288). -/
def stepZone (ob : OrderBlock) (c : CandleData) : OrderBlock :=
  if ob.subtype = OBSubtype.Standard then
    if ob.direction = Direction.Bullish ∧ c.close < ob.priceLow then
      { ob with subtype := OBSubtype.Breaker, direction := Direction.Bearish }
    else if ob.direction = Direction.Bearish ∧ c.close > ob.priceHigh then
      { ob with subtype := OBSubtype.Breaker, direction := Direction.Bullish }
    else ob
  else if ob.subtype = OBSubtype.Breaker then
    if (ob.direction = Direction.Bullish ∧ c.close < ob.priceLow) ∨
       (ob.direction = Direction.Bearish ∧ c.close > ob.priceHigh) then
      { ob with mitigated := true }
    else ob
  else ob

def scanZone (ob : OrderBlock) (bars : List CandleData) : OrderBlock :=
  bars.foldl stepZone ob

def zoneLifecycle (data : List CandleData) (ob : OrderBlock) : OrderBlock :=
  match data.findIdx? (fun d => decide (d.time = ob.time)) with
  | none => ob
  | some startIndex => scanZone ob (data.drop (startIndex + 1))

def detectOrderBlocks (data : List CandleData) (thresholdMult : ℚ) : List OrderBlock :=
  let thr := impulseThreshold data thresholdMult
  let obs := (obIndices data).flatMap (obCandidatesAt data thr)
  let scanned := obs.map (zoneLifecycle data)
  let kept := scanned.filter fun o => ! o.mitigated
  kept.drop (kept.length - 10)

-- ## Confluence Scorer / Signal Generator (src/index.tsx lines 293-371)

def bullOBPred (candle : CandleData) (ob : OrderBlock) : Bool :=
  decide (ob.direction = Direction.Bullish) && ! ob.mitigated &&
  decide (candle.low ≤ ob.priceHigh) && decide (ob.priceLow ≤ candle.low) &&
  decide (ob.time < candle.time)

def bearOBPred (candle : CandleData) (ob : OrderBlock) : Bool :=
  decide (ob.direction = Direction.Bearish) && ! ob.mitigated &&
  decide (ob.priceLow ≤ candle.high) && decide (candle.high ≤ ob.priceHigh) &&
  decide (ob.time < candle.time)

def bullFVGPred (candle : CandleData) (f : FVG) : Bool :=
  decide (f.direction = Direction.Bullish) &&
  decide (candle.low ≤ f.priceHigh) && decide (f.priceLow ≤ candle.low) &&
  decide (f.time < candle.time)

def bearFVGPred (candle : CandleData) (f : FVG) : Bool :=
  decide (f.direction = Direction.Bearish) &&
  decide (f.priceLow ≤ candle.high) && decide (candle.high ≤ f.priceHigh) &&
  decide (f.time < candle.time)

def touchingBullOB (obs : List OrderBlock) (candle : CandleData) : Option OrderBlock :=
  obs.find? (bullOBPred candle)

def touchingBearOB (obs : List OrderBlock) (candle : CandleData) : Option OrderBlock :=
  obs.find? (bearOBPred candle)

def touchingBullFVG (fvgs : List FVG) (candle : CandleData) : Option FVG :=
  fvgs.find? (bullFVGPred candle)

def touchingBearFVG (fvgs : List FVG) (candle : CandleData) : Option FVG :=
  fvgs.find? (bearFVGPred candle)

def sessionScore (hour : Int) : Nat :=
  if getSession hour ≠ SessionType.NONE then 1 else 0

/-- Additive confluence score with its ordered tag list (lines 305-333). -/
def confluencesAt (data : List CandleData) (obs : List OrderBlock) (fvgs : List FVG)
    (i : Nat) : Nat × List String :=
  let candle := nth data i
  let a0 : Nat × List String := (0, [])
  let a1 := match touchingBullOB obs candle with
    | some ob => (a0.1 + 3, a0.2 ++
        ["Retest Bullish " ++ (if ob.subtype = OBSubtype.Breaker then "Breaker" else "OB")])
    | none => a0
  let a2 := match touchingBearOB obs candle with
    | some ob => (a1.1 + 3, a1.2 ++
        ["Retest Bearish " ++ (if ob.subtype = OBSubtype.Breaker then "Breaker" else "OB")])
    | none => a1
  let a3 := match touchingBullFVG fvgs candle with
    | some f =>
      let b := (a2.1 + 2, a2.2 ++ ["Discount FVG"])
      if f.isSilverBullet then (b.1 + 4, b.2 ++ ["Silver Bullet Zone"]) else b
    | none => a2
  let a4 := match touchingBearFVG fvgs candle with
    | some f =>
      let b := (a3.1 + 2, a3.2 ++ ["Premium FVG"])
      if f.isSilverBullet then (b.1 + 4, b.2 ++ ["Silver Bullet Zone"]) else b
    | none => a3
  (a4.1 + sessionScore (getUTCHours candle.time), a4.2)

def isBullishAt (data : List CandleData) (i : Nat) : Bool :=
  let candle := nth data i
  let prev50 := (data.drop (i - 50)).take 50
  let avg := (prev50.map (fun c => c.close)).sum / 50
  decide (candle.close > avg)

def minQ : List ℚ → ℚ
  | [] => 0
  | x :: xs => xs.foldl min x

def maxQ : List ℚ → ℚ
  | [] => 0
  | x :: xs => xs.foldl max x

def isScalping (timeframe : String) : Bool :=
  decide (timeframe = "1m") || decide (timeframe = "3m") || decide (timeframe = "5m")

def mkLong (data : List CandleData) (obs : List OrderBlock) (timeframe : String)
    (i : Nat) (sc : Nat × List String) (po3 : PO3) : EntrySignal :=
  let candle := nth data i
  let swingLow := minQ (((data.drop (i - 5)).take 6).map fun c => c.low)
  let obPL := match touchingBullOB obs candle with
    | some ob => if ob.priceLow = 0 then swingLow else ob.priceLow
    | none => swingLow
  let sl := min swingLow obPL - candle.close * (5/10000)
  let risk := candle.close - sl
  let tp := candle.close + risk * 2
  { time := candle.time, type := Side.LONG, price := candle.close, score := sc.1,
    confluences := sc.2, sl := sl, tp := tp,
    winProbability := min 95 (sc.1 * 10 + 30),
    tradingStyle := if isScalping timeframe then TradingStyle.SCALP else TradingStyle.DAY_TRADE,
    po3Phase := po3, backtestResult := none, backtestPnL := none }

def mkShort (data : List CandleData) (obs : List OrderBlock) (timeframe : String)
    (i : Nat) (sc : Nat × List String) (po3 : PO3) : EntrySignal :=
  let candle := nth data i
  let swingHigh := maxQ (((data.drop (i - 5)).take 6).map fun c => c.high)
  let obPH := match touchingBearOB obs candle with
    | some ob => if ob.priceHigh = 0 then swingHigh else ob.priceHigh
    | none => swingHigh
  let sl := max swingHigh obPH + candle.close * (5/10000)
  let risk := sl - candle.close
  let tp := candle.close - risk * 2
  { time := candle.time, type := Side.SHORT, price := candle.close, score := sc.1,
    confluences := sc.2, sl := sl, tp := tp,
    winProbability := min 95 (sc.1 * 10 + 30),
    tradingStyle := if isScalping timeframe then TradingStyle.SCALP else TradingStyle.DAY_TRADE,
    po3Phase := po3, backtestResult := none, backtestPnL := none }

/-- One iteration of the signal loop: the state is
(`lastSignalTime`, signals so far).  `COOLDOWN = 600`. -/
def entriesStep (data : List CandleData) (obs : List OrderBlock) (fvgs : List FVG)
    (timeframe : String) (st : Int × List EntrySignal) (i : Nat) : Int × List EntrySignal :=
  let candle := nth data i
  let sc := confluencesAt data obs fvgs i
  let po3 := determinePO3 candle (getSession (getUTCHours candle.time))
  if 4 ≤ sc.1 ∧ 600 < candle.time - st.1 then
    if isBullishAt data i = true ∧
       ((touchingBullOB obs candle).isSome ∨ (touchingBullFVG fvgs candle).isSome) then
      (candle.time, st.2 ++ [mkLong data obs timeframe i sc po3])
    else if isBullishAt data i = false ∧
       ((touchingBearOB obs candle).isSome ∨ (touchingBearFVG fvgs candle).isSome) then
      (candle.time, st.2 ++ [mkShort data obs timeframe i sc po3])
    else st
  else st

def entryIndices (data : List CandleData) : List Nat :=
  List.range' 100 (data.length - 100)

def detectEntries (data : List CandleData) (obs : List OrderBlock) (fvgs : List FVG)
    (timeframe : String) : List EntrySignal :=
  ((entryIndices data).foldl (entriesStep data obs fvgs timeframe) (0, [])).2

-- ## Backtest Simulator (src/index.tsx lines 373-442)

/-- Forward scan of the bars after the signal's anchor (lines 393-418);
the stop-loss branch is checked before the take-profit branch. -/
def resolveSignal (sig : EntrySignal) : List CandleData → BTResult × Int
  | [] => (BTResult.PENDING, 0)
  | c :: rest =>
    if sig.type = Side.LONG then
      if c.low ≤ sig.sl then (BTResult.LOSS, -1000)
      else if c.high ≥ sig.tp then (BTResult.WIN, 2000)
      else resolveSignal sig rest
    else
      if c.high ≥ sig.sl then (BTResult.LOSS, -1000)
      else if c.low ≤ sig.tp then (BTResult.WIN, 2000)
      else resolveSignal sig rest

structure BTState where
  wins : Nat
  losses : Nat
  netPnL : Int
  maxDrawdown : Int
  peakBalance : Int
  currentBalance : Int
  equityCurve : List Int
  results : List EntrySignal
  deriving DecidableEq

def initBTState : BTState :=
  ⟨0, 0, 0, 0, 0, 100000, [100000], []⟩

def backtestStep (data : List CandleData) (st : BTState) (signal : EntrySignal) : BTState :=
  match data.findIdx? (fun d => decide (d.time = signal.time)) with
  | none => { st with results := st.results ++ [signal] }
  | some startIndex =>
    let r := resolveSignal signal (data.drop (startIndex + 1))
    let wins := if r.1 = BTResult.WIN then st.wins + 1 else st.wins
    let losses := if r.1 = BTResult.LOSS then st.losses + 1 else st.losses
    let bal := st.currentBalance + r.2
    let peak := max st.peakBalance bal
    { wins := wins, losses := losses, netPnL := st.netPnL + r.2,
      maxDrawdown := max st.maxDrawdown (peak - bal), peakBalance := peak,
      currentBalance := bal, equityCurve := st.equityCurve ++ [bal],
      results := st.results ++
        [{ signal with backtestResult := some r.1, backtestPnL := some r.2 }] }

def performBacktest (data : List CandleData) (signals : List EntrySignal) :
    BacktestStats × List EntrySignal :=
  let st := signals.foldl (backtestStep data) initBTState
  let totalTrades := st.wins + st.losses
  let winRate : ℚ := if 0 < totalTrades then (st.wins : ℚ) / (totalTrades : ℚ) * 100 else 0
  let profitFactor : ℚ :=
    if 0 < st.losses then ((st.wins : ℚ) * 2000) / ((st.losses : ℚ) * 1000)
    else if 0 < st.wins then 999 else 0
  (⟨totalTrades, st.wins, st.losses, winRate, st.netPnL, profitFactor,
    st.maxDrawdown, st.equityCurve⟩, st.results)

-- ## Daily Performance Aggregator (src/index.tsx lines 864-898)

def resolvedB (e : EntrySignal) : Bool :=
  decide (e.backtestResult = some BTResult.WIN) ||
  decide (e.backtestResult = some BTResult.LOSS)

/-- The per-day forEach accumulator: (totalGain, totalLoss, netPnL);
`RISK_PER_TRADE = 1000`. -/
def dayAccum (st : Int × Int × Int) (t : EntrySignal) : Int × Int × Int :=
  if t.backtestResult = some BTResult.WIN then
    (st.1 + 2000, st.2.1, st.2.2 + 2000)
  else
    (st.1, st.2.1 + 1000, st.2.2 - 1000)

/-- `dailyStats`, parameterized by the local-calendar-date key of a timestamp
(the TS `toLocaleDateString`, which depends on the runtime locale and zone). -/
def dailyStats (dateOf : Int → Nat) (entries : List EntrySignal) : List DailyStat :=
  let valid := entries.filter resolvedB
  let keys := (valid.map fun e => dateOf e.time).dedup
  let sortedDates := (keys.insertionSort fun a b => b ≤ a).take 3
  sortedDates.map fun d =>
    let group := valid.filter fun e => decide (dateOf e.time = d)
    let dailyTrades := (group.insertionSort fun a b => b.time ≤ a.time).take 10
    let acc := dailyTrades.foldl dayAccum (0, 0, 0)
    ⟨d, acc.1, acc.2.1, acc.2.2, dailyTrades.length, dailyTrades⟩

-- ## Concrete scenario data used by the theorems below

/-- Eleven bars rising to a single peak at index 5 then falling: exactly one
pivot (a pivot high) for the default lookback width 5. -/
def data11 : List CandleData :=
  (List.range 11).map fun (i : Nat) =>
    let h : ℚ := if i ≤ 5 then (i : ℚ) + 1 else (11 : ℚ) - (i : ℚ)
    ⟨(i : Int), 0, h, h - 1, 0⟩

/-- The spec's synthetic FVG triplet: `high[0] = 100`, `low[2] = 105`. -/
def tripletData : List CandleData :=
  [⟨0, 95, 100, 90, 95⟩, ⟨60, 95, 200, 90, 95⟩, ⟨120, 107, 110, 105, 107⟩]

/-- A later bar whose low 99 drops below the gap's lower bound 100. -/
def mitBar : CandleData := ⟨180, 150, 300, 99, 150⟩

def tripletGap : FVG := ⟨"fvg-bull-60", 60, 105, 100, Direction.Bullish, false, false⟩

/-- Three doji bars (`close = open`) with distinct prices: total body size 0. -/
def dojiData : List CandleData :=
  [⟨0, 5, 6, 4, 5⟩, ⟨60, 7, 8, 6, 7⟩, ⟨120, 3, 9, 2, 3⟩]

/-- Bearish candle at index 2, impulsive up-close at index 3 breaking its high,
close below the zone low at index 4 (flip to Breaker), close above the zone
high at index 5 (mitigation of the flipped Breaker). -/
def obLifecycleData : List CandleData :=
  [⟨0, 10, 11, 9, 10⟩, ⟨1, 10, 11, 9, 10⟩, ⟨2, 10, 11, 8, 9⟩, ⟨3, 10, 21, 9, 20⟩,
   ⟨4, 6, 7, 4, 5⟩, ⟨5, 11, 13, 10, 12⟩, ⟨6, 10, 10, 10, 10⟩, ⟨7, 10, 10, 10, 10⟩]

/-- Same as `obLifecycleData` but the bar at index 5 closes at 10 ≤ 11, so the
flipped Breaker is never mitigated and survives in the result. -/
def obSurviveData : List CandleData :=
  [⟨0, 10, 11, 9, 10⟩, ⟨1, 10, 11, 9, 10⟩, ⟨2, 10, 11, 8, 9⟩, ⟨3, 10, 21, 9, 20⟩,
   ⟨4, 6, 7, 4, 5⟩, ⟨5, 10, 10, 9, 10⟩, ⟨6, 10, 10, 10, 10⟩, ⟨7, 10, 10, 10, 10⟩]

/-- The Standard Bullish zone created at index 2 of the lifecycle data. -/
def zone2 : OrderBlock := ⟨"ob-bull-2", 2, 11, 8, Direction.Bullish, false, OBSubtype.Standard⟩

/-- A mitigated Breaker zone, for exercising mitigation persistence. -/
def zoneMit : OrderBlock := ⟨"ob-bull-2", 2, 11, 8, Direction.Bearish, true, OBSubtype.Breaker⟩

/-- 103 bars spaced `g` seconds apart with slowly rising closes; every bar from
index 100 on touches `obC4` and falls in a session, scoring exactly 4. -/
def mkD (g : Int) : List CandleData :=
  (List.range 103).map fun (i : Nat) => ⟨1000 + g * (i : Int), (i : ℚ), (i : ℚ) + 1, 1, (i : ℚ)⟩

def obC4 : OrderBlock := ⟨"ob-x", 1, 1000000, 1, Direction.Bullish, false, OBSubtype.Standard⟩

/-- Two bars; the signal anchored at the first never touches stop 1 nor target
100000 on the second, so it stays Pending. -/
def pendData : List CandleData := [⟨0, 10, 10, 10, 10⟩, ⟨60, 550, 600, 500, 550⟩]

def pendSig : EntrySignal :=
  ⟨0, Side.LONG, 10, 5, [], 1, 100000, 80, TradingStyle.DAY_TRADE, PO3.NONE, none, none⟩

/-- A LONG signal with stop 99 and target 102. -/
def sigW : EntrySignal :=
  ⟨0, Side.LONG, 100, 5, [], 99, 102, 80, TradingStyle.DAY_TRADE, PO3.NONE, none, none⟩

/-- A bar touching both the stop (low 98 ≤ 99) and the target (high 103 ≥ 102). -/
def barBoth : CandleData := ⟨60, 100, 103, 98, 100⟩

/-- Constant date key: every timestamp on the same local calendar date. -/
def dOne : Int → Nat := fun _ => 0

/-- Fifteen resolved signals (alternating Win/Loss) on a single date. -/
def sig15 : List EntrySignal :=
  (List.range 15).map fun (k : Nat) =>
    ⟨(k : Int), Side.LONG, 0, 0, [], 0, 0, 0, TradingStyle.DAY_TRADE, PO3.NONE,
     some (if k % 2 = 0 then BTResult.WIN else BTResult.LOSS), some 0⟩

def dfltStat : DailyStat := ⟨0, 0, 0, 0, 0, []⟩

/-- The single pivot (high at index 5, price 6) of `data11`. -/
def pv5 : PivotPt := ⟨5, 6, true⟩

-- ## Spec-side touch predicates for the backtest boundaries

/-- The stop-loss boundary test of the backtest scan: for a LONG the bar's low
reaches-or-breaches the stop; for a SHORT the bar's high does. -/
def stopTouched (sig : EntrySignal) (c : CandleData) : Bool :=
  if sig.type = Side.LONG then decide (c.low ≤ sig.sl) else decide (sig.sl ≤ c.high)

/-- The take-profit boundary test: for a LONG the bar's high reaches-or-exceeds
the target; for a SHORT the bar's low does. -/
def targetTouched (sig : EntrySignal) (c : CandleData) : Bool :=
  if sig.type = Side.LONG then decide (sig.tp ≤ c.high) else decide (c.low ≤ sig.tp)

-- ## Theorems

-- ### C7 — impulse threshold degeneracy

unseal Rat.add Rat.sub Rat.mul Rat.inv in
/-- C7 counterexample: on a non-empty all-doji series the mean body size is 1
(the `|| 1` fallback replaces the zero quotient), so `IMPULSE_THRESHOLD` equals
the multiplier, not 0 as the claim states. -/
theorem c7_counterexample :
    meanBody dojiData = 1 ∧
    impulseThreshold dojiData (6/5) = 6/5 ∧
    ¬ impulseThreshold dojiData (6/5) = 0 := by
  decide

/-- C7 (amended): the mean body size over the most recent 100 bars is computed
as the quotient defaulted to 1 whenever the quotient is 0 or undefined — never a
division by zero — and for a series in which every bar has close = open the mean
body size is 1 and `IMPULSE_THRESHOLD` equals the multiplier. -/
theorem c7_threshold_behavior (data : List CandleData) (mult : ℚ) :
    (meanBody data = 1 ∨
      (bodyLen data ≠ 0 ∧ meanBody data = bodySum data / (bodyLen data : ℚ))) ∧
    ((∀ b ∈ data, b.close = b.open_) →
      meanBody data = 1 ∧ impulseThreshold data mult = mult) := by
  constructor
  · unfold meanBody
    by_cases h0 : bodyLen data = 0
    · simp [h0]
    · by_cases hq : bodySum data / (bodyLen data : ℚ) = 0
      · simp [h0, hq]
      · simp [h0, hq]
  · intro hall
    have hsum : bodySum data = 0 := by
      apply List.sum_eq_zero
      intro x hx
      unfold bodySizes at hx
      obtain ⟨c, hc, rfl⟩ := List.mem_map.mp hx
      have hc' : c ∈ data := List.mem_of_mem_drop hc
      rw [hall c hc']
      simp
    have hmean : meanBody data = 1 := by
      unfold meanBody
      by_cases h0 : bodyLen data = 0
      · simp [h0]
      · simp [h0, hsum]
    exact ⟨hmean, by unfold impulseThreshold; rw [hmean, one_mul]⟩

/-- C7 witness: the amended statement applied to the concrete doji series with
multiplier 7. -/
theorem c7_threshold_behavior_witness :
    meanBody dojiData = 1 ∧ impulseThreshold dojiData 7 = 7 :=
  (c7_threshold_behavior dojiData 7).2 (by decide)

-- ### C10 — session priority, PO3, session bonus

/-- C10: overlapping session windows resolve with fixed priority Asia over
London over New York — hour 7 is Asia (so PO3 is Accumulation there), hours
12–15 are London — the UTC hour always lies in [0, 24), and the session bonus
is exactly 1 for hours in [0, 21) and 0 otherwise, never 2. -/
theorem c10_session_priority :
    getSession 7 = SessionType.ASIA ∧
    (∀ c : CandleData, determinePO3 c (getSession 7) = PO3.ACCUMULATION) ∧
    (∀ h : Int, 12 ≤ h → h < 16 → getSession h = SessionType.LONDON) ∧
    (∀ t : Int, 0 ≤ getUTCHours t ∧ getUTCHours t < 24) ∧
    (∀ h : Fin 24, sessionScore ((h : Nat) : Int) =
      if ((h : Nat) : Int) < 21 then 1 else 0) := by
  refine ⟨by decide, ?_, ?_, ?_, by decide⟩
  · intro c
    have h7 : getSession 7 = SessionType.ASIA := by decide
    rw [h7]
    rfl
  · intro h h1 h2
    unfold getSession
    rw [if_neg (by omega), if_pos ⟨by omega, h2⟩]
  · intro t
    unfold getUTCHours
    exact ⟨Int.emod_nonneg _ (by norm_num), Int.emod_lt_of_pos _ (by norm_num)⟩

/-- C10 witness: hour 13 (inside both the London and New York windows) is
classified London. -/
theorem c10_session_priority_witness : getSession 13 = SessionType.LONDON :=
  c10_session_priority.2.2.1 13 (by norm_num) (by norm_num)

-- ### C6 — FVG detection and mitigation

/-- C6: a bullish gap is recorded at index i exactly when
`bar[i−2].high < bar[i].low`, with band [bar[i−2].high, bar[i].low] anchored at
bar[i−1]'s timestamp (mirror for bearish); the detector returns exactly the
recorded gaps that no later bar ever mitigates; and the synthetic triplet with
high[0] = 100, low[2] = 105 yields the Bullish gap with band [100, 105], which a
later bar with low 99 < 100 removes from the result. -/
theorem c6_fvg_detection :
    (∀ (data : List CandleData) (i : Nat),
      (bullGapAt data i).isSome = true ↔ (nth data (i - 2)).high < (nth data i).low) ∧
    (∀ (data : List CandleData) (i : Nat) (f : FVG), bullGapAt data i = some f →
      f.direction = Direction.Bullish ∧ f.time = (nth data (i - 1)).time ∧
      f.priceLow = (nth data (i - 2)).high ∧ f.priceHigh = (nth data i).low) ∧
    (∀ (data : List CandleData) (i : Nat),
      (bearGapAt data i).isSome = true ↔ (nth data i).high < (nth data (i - 2)).low) ∧
    (∀ (data : List CandleData) (i : Nat) (f : FVG), bearGapAt data i = some f →
      f.direction = Direction.Bearish ∧ f.time = (nth data (i - 1)).time ∧
      f.priceLow = (nth data i).high ∧ f.priceHigh = (nth data (i - 2)).low) ∧
    (∀ (data : List CandleData) (f : FVG),
      f ∈ detectFVG data ↔
        f ∈ rawFVGs data ∧ ¬ ∃ c ∈ data, f.time < c.time ∧ mitCond f c = true) ∧
    detectFVG tripletData = [tripletGap] ∧
    tripletGap.priceLow = 100 ∧ tripletGap.priceHigh = 105 ∧
    detectFVG (tripletData ++ [mitBar]) = [] := by
  refine ⟨?_, ?_, ?_, ?_, ?_, by decide, by decide, by decide, by decide⟩
  · intro data i
    unfold bullGapAt
    by_cases h : (nth data (i - 2)).high < (nth data i).low
    · simp [h]
    · simp [h]
  · intro data i f hf
    unfold bullGapAt at hf
    by_cases h : (nth data (i - 2)).high < (nth data i).low
    · simp only [if_pos h] at hf
      cases hf
      exact ⟨rfl, rfl, rfl, rfl⟩
    · simp only [if_neg h] at hf
      cases hf
  · intro data i
    unfold bearGapAt
    by_cases h : (nth data i).high < (nth data (i - 2)).low
    · simp [h, gt_iff_lt]
    · simp [h, gt_iff_lt]
  · intro data i f hf
    unfold bearGapAt at hf
    by_cases h : (nth data (i - 2)).low > (nth data i).high
    · simp only [if_pos h] at hf
      cases hf
      exact ⟨rfl, rfl, rfl, rfl⟩
    · simp only [if_neg h] at hf
      cases hf
  · intro data f
    unfold detectFVG
    rw [List.mem_filter]
    have hiff : (!fvgMitigated data f) = true ↔
        ¬ ∃ c ∈ data, f.time < c.time ∧ mitCond f c = true := by
      simp [fvgMitigated]
    rw [hiff]

/-- C6 witness: the band/anchor characterization applied to the concrete
triplet at index 2. -/
theorem c6_fvg_detection_witness :
    tripletGap.direction = Direction.Bullish ∧
    tripletGap.time = (nth tripletData 1).time ∧
    tripletGap.priceLow = (nth tripletData 0).high ∧
    tripletGap.priceHigh = (nth tripletData 2).low :=
  c6_fvg_detection.2.1 tripletData 2 tripletGap (by decide)

-- ### C5 — first-match confluence lookup

/-- C5: each zone/gap touch lookup returns the first matching element in
ascending storage order: it returns `some z` exactly when the list splits as
`l1 ++ z :: l2` with the predicate true at `z` and false on every earlier
element; and the zone predicates require an unmitigated zone of the right
direction whose band contains the bar's low (bullish) or high (bearish) and
whose anchor time is strictly before the bar. -/
theorem c5_first_match_lookup :
    (∀ (obs : List OrderBlock) (c : CandleData) (z : OrderBlock),
      touchingBullOB obs c = some z ↔
        bullOBPred c z = true ∧
        ∃ l1 l2, obs = l1 ++ z :: l2 ∧ ∀ y ∈ l1, bullOBPred c y = false) ∧
    (∀ (obs : List OrderBlock) (c : CandleData) (z : OrderBlock),
      touchingBearOB obs c = some z ↔
        bearOBPred c z = true ∧
        ∃ l1 l2, obs = l1 ++ z :: l2 ∧ ∀ y ∈ l1, bearOBPred c y = false) ∧
    (∀ (fvgs : List FVG) (c : CandleData) (g : FVG),
      touchingBullFVG fvgs c = some g ↔
        bullFVGPred c g = true ∧
        ∃ l1 l2, fvgs = l1 ++ g :: l2 ∧ ∀ y ∈ l1, bullFVGPred c y = false) ∧
    (∀ (fvgs : List FVG) (c : CandleData) (g : FVG),
      touchingBearFVG fvgs c = some g ↔
        bearFVGPred c g = true ∧
        ∃ l1 l2, fvgs = l1 ++ g :: l2 ∧ ∀ y ∈ l1, bearFVGPred c y = false) ∧
    (∀ (c : CandleData) (z : OrderBlock),
      bullOBPred c z = true ↔
        (z.direction = Direction.Bullish ∧ z.mitigated = false ∧
         c.low ≤ z.priceHigh ∧ z.priceLow ≤ c.low ∧ z.time < c.time)) ∧
    (∀ (c : CandleData) (z : OrderBlock),
      bearOBPred c z = true ↔
        (z.direction = Direction.Bearish ∧ z.mitigated = false ∧
         z.priceLow ≤ c.high ∧ c.high ≤ z.priceHigh ∧ z.time < c.time)) := by
  refine ⟨?_, ?_, ?_, ?_, ?_, ?_⟩
  · intro obs c z
    unfold touchingBullOB
    rw [List.find?_eq_some]
    simp [Bool.not_eq_true']
  · intro obs c z
    unfold touchingBearOB
    rw [List.find?_eq_some]
    simp [Bool.not_eq_true']
  · intro fvgs c g
    unfold touchingBullFVG
    rw [List.find?_eq_some]
    simp [Bool.not_eq_true']
  · intro fvgs c g
    unfold touchingBearFVG
    rw [List.find?_eq_some]
    simp [Bool.not_eq_true']
  · intro c z
    unfold bullOBPred
    simp [Bool.and_eq_true, decide_eq_true_eq, Bool.not_eq_true', and_assoc]
  · intro c z
    unfold bearOBPred
    simp [Bool.and_eq_true, decide_eq_true_eq, Bool.not_eq_true', and_assoc]

-- ### C1 — impulse-zone lifecycle state machine

theorem stepZone_mitigated_mono (ob : OrderBlock) (c : CandleData)
    (h : ob.mitigated = true) : (stepZone ob c).mitigated = true := by
  unfold stepZone
  split
  · split
    · simp [h]
    · split
      · simp [h]
      · exact h
  · split
    · split
      · simp
      · exact h
    · exact h

theorem scanZone_mitigated_mono (ob : OrderBlock) (bars : List CandleData)
    (h : ob.mitigated = true) : (scanZone ob bars).mitigated = true := by
  induction bars generalizing ob with
  | nil => exact h
  | cons c rest ih => exact ih (stepZone ob c) (stepZone_mitigated_mono ob c h)

unseal Rat.add Rat.sub Rat.mul Rat.inv in
/-- C1: the lifecycle scan is the strict two-stage state machine of the spec:
mitigation is absorbing under every step; a Standard bullish zone flips to a
Bearish Breaker exactly when a bar's close is below the zone's lower bound
(mirror for bearish); a Breaker is mitigated exactly when a close breaks the
boundary against its reversed direction; mitigated zones never appear in the
detector's result; and on the concrete lifecycle series the created zone is
flipped by the close below its low, then mitigated by the close above its high
and excluded, while without that final close it survives as a Bearish Breaker. -/
theorem c1_zone_state_machine :
    (∀ (ob : OrderBlock) (c : CandleData), ob.mitigated = true →
      (stepZone ob c).mitigated = true) ∧
    (∀ (ob : OrderBlock) (bars : List CandleData), ob.mitigated = true →
      (scanZone ob bars).mitigated = true) ∧
    (∀ (ob : OrderBlock) (c : CandleData),
      ob.subtype = OBSubtype.Standard → ob.direction = Direction.Bullish →
      stepZone ob c = if c.close < ob.priceLow
        then { ob with subtype := OBSubtype.Breaker, direction := Direction.Bearish }
        else ob) ∧
    (∀ (ob : OrderBlock) (c : CandleData),
      ob.subtype = OBSubtype.Standard → ob.direction = Direction.Bearish →
      stepZone ob c = if ob.priceHigh < c.close
        then { ob with subtype := OBSubtype.Breaker, direction := Direction.Bullish }
        else ob) ∧
    (∀ (ob : OrderBlock) (c : CandleData), ob.subtype = OBSubtype.Breaker →
      stepZone ob c = if (ob.direction = Direction.Bullish ∧ c.close < ob.priceLow) ∨
          (ob.direction = Direction.Bearish ∧ ob.priceHigh < c.close)
        then { ob with mitigated := true }
        else ob) ∧
    (∀ (data : List CandleData) (m : ℚ) (z : OrderBlock),
      z ∈ detectOrderBlocks data m → z.mitigated = false) ∧
    scanZone zone2 ((obLifecycleData.drop 3).take 2) =
      { zone2 with subtype := OBSubtype.Breaker, direction := Direction.Bearish } ∧
    scanZone zone2 (obLifecycleData.drop 3) =
      { zone2 with subtype := OBSubtype.Breaker, direction := Direction.Bearish,
                   mitigated := true } ∧
    detectOrderBlocks obLifecycleData 1 = [] ∧
    detectOrderBlocks obSurviveData 1 =
      [{ zone2 with subtype := OBSubtype.Breaker, direction := Direction.Bearish }] := by
  refine ⟨stepZone_mitigated_mono, scanZone_mitigated_mono, ?_, ?_, ?_, ?_,
    by decide, by decide, by decide, by decide⟩
  · intro ob c h1 h2
    unfold stepZone
    rw [if_pos h1]
    by_cases hc : c.close < ob.priceLow
    · rw [if_pos ⟨h2, hc⟩, if_pos hc]
    · rw [if_neg fun hand => hc hand.2, if_neg hc,
        if_neg fun hand => by rw [h2] at hand; exact absurd hand.1 (by simp)]
  · intro ob c h1 h2
    unfold stepZone
    rw [if_pos h1]
    by_cases hc : ob.priceHigh < c.close
    · rw [if_neg fun hand => by rw [h2] at hand; exact absurd hand.1 (by simp),
        if_pos ⟨h2, hc⟩, if_pos hc]
    · rw [if_neg fun hand => by rw [h2] at hand; exact absurd hand.1 (by simp),
        if_neg fun hand => hc hand.2, if_neg hc]
  · intro ob c h1
    unfold stepZone
    rw [if_neg (by rw [h1]; simp), if_pos h1]
  · intro data m z hz
    unfold detectOrderBlocks at hz
    have hz' := List.mem_of_mem_drop hz
    rw [List.mem_filter] at hz'
    simpa using hz'.2

/-- C1 witness: mitigation is absorbing on a concrete mitigated Breaker. -/
theorem c1_zone_state_machine_witness :
    (scanZone zoneMit [barBoth]).mitigated = true :=
  c1_zone_state_machine.2.1 zoneMit [barBoth] rfl

-- ### C8 — backtest stop-loss priority

theorem resolveSignal_cons_eq (sig : EntrySignal) (c : CandleData) (rest : List CandleData) :
    resolveSignal sig (c :: rest) =
      if stopTouched sig c then (BTResult.LOSS, -1000)
      else if targetTouched sig c then (BTResult.WIN, 2000)
      else resolveSignal sig rest := by
  have e : resolveSignal sig (c :: rest) =
      if sig.type = Side.LONG then
        if c.low ≤ sig.sl then (BTResult.LOSS, -1000)
        else if c.high ≥ sig.tp then (BTResult.WIN, 2000)
        else resolveSignal sig rest
      else
        if c.high ≥ sig.sl then (BTResult.LOSS, -1000)
        else if c.low ≤ sig.tp then (BTResult.WIN, 2000)
        else resolveSignal sig rest := rfl
  rw [e]
  by_cases h : sig.type = Side.LONG
  · simp [stopTouched, targetTouched, h]
  · simp [stopTouched, targetTouched, h]

/-- C8: in the backtest forward scan, as long as no earlier bar touched either
boundary, a bar touching the stop resolves the trade as Loss with pnl −1000
even if it also touches the target (stop-loss priority), and a bar touching
only the target resolves it as Win with pnl +2000 — for both LONG (stop via
low, target via high) and SHORT (stop via high, target via low). -/
theorem c8_stop_priority (sig : EntrySignal) (pre : List CandleData) (b : CandleData)
    (post : List CandleData)
    (hpre : ∀ c ∈ pre, stopTouched sig c = false ∧ targetTouched sig c = false) :
    (stopTouched sig b = true →
      resolveSignal sig (pre ++ b :: post) = (BTResult.LOSS, -1000)) ∧
    (stopTouched sig b = false → targetTouched sig b = true →
      resolveSignal sig (pre ++ b :: post) = (BTResult.WIN, 2000)) := by
  induction pre with
  | nil =>
    constructor
    · intro hs
      rw [List.nil_append, resolveSignal_cons_eq, if_pos hs]
    · intro hs ht
      rw [List.nil_append, resolveSignal_cons_eq, if_neg (by simp [hs]),
        if_pos ht]
  | cons c pre ih =>
    have hc := hpre c (List.mem_cons_self c pre)
    have ih' := ih fun x hx => hpre x (List.mem_cons_of_mem c hx)
    constructor
    · intro hs
      rw [List.cons_append, resolveSignal_cons_eq, if_neg (by simp [hc.1]),
        if_neg (by simp [hc.2])]
      exact ih'.1 hs
    · intro hs ht
      rw [List.cons_append, resolveSignal_cons_eq, if_neg (by simp [hc.1]),
        if_neg (by simp [hc.2])]
      exact ih'.2 hs ht

/-- C8 witness: a LONG signal and a single bar satisfying both boundaries
(low 98 ≤ stop 99 and high 103 ≥ target 102) resolves as Loss −1000. -/
theorem c8_stop_priority_witness :
    resolveSignal sigW [barBoth] = (BTResult.LOSS, -1000) ∧
    stopTouched sigW barBoth = true ∧ targetTouched sigW barBoth = true :=
  ⟨(c8_stop_priority sigW [] barBoth [] (by simp)).1 (by decide), by decide, by decide⟩

-- ### C2 — swing structure: every pivot emits a point

unseal Rat.add Rat.sub Rat.mul Rat.inv in
/-- C2 counterexample: an 11-bar single-peak series (default lookback 5) has
exactly one pivot, yet the detector emits one StructurePoint (an LH for the
very first pivot high, compared against itself), violating the claimed bound
length ≤ pivots − 2. -/
theorem c2_counterexample :
    (pivotHighs data11 5).length + (pivotLows data11 5).length = 1 ∧
    detectStructure data11 5 = [⟨5, 6, StructKind.LH, Direction.Bearish⟩] ∧
    ¬ ((detectStructure data11 5).length ≤
        (pivotHighs data11 5).length + (pivotLows data11 5).length - 2) := by
  decide

theorem structStep_high_char (data : List CandleData) (st : StructState) (p lh : PivotPt)
    (hp : p.isHigh = true) (hlh : st.lastHigh = some lh) :
    structStep data st p = { st with lastHigh := some p, points := st.points ++
      [⟨(nth data p.index).time, p.price,
        if lh.price < p.price then StructKind.HH else StructKind.LH,
        Direction.Bearish⟩] } := by
  unfold structStep
  by_cases hcmp : lh.price < p.price
  · simp [hp, hlh, hcmp]
  · simp [hp, hlh, hcmp]

theorem structStep_low_char (data : List CandleData) (st : StructState) (p ll : PivotPt)
    (hp : p.isHigh = false) (hll : st.lastLow = some ll) :
    structStep data st p = { st with lastLow := some p, points := st.points ++
      [⟨(nth data p.index).time, p.price,
        if p.price < ll.price then StructKind.LL else StructKind.HL,
        Direction.Bullish⟩] } := by
  unfold structStep
  by_cases hcmp : p.price < ll.price
  · simp [hp, hll, hcmp]
  · simp [hp, hll, hcmp]

theorem structStep_foldl_length (data : List CandleData) (l : List PivotPt) :
    ∀ (st : StructState),
      (st.lastHigh.isSome = true ∨ ∀ p ∈ l, p.isHigh = false) →
      (st.lastLow.isSome = true ∨ ∀ p ∈ l, p.isHigh = true) →
      (l.foldl (structStep data) st).points.length = st.points.length + l.length := by
  induction l with
  | nil => intro st _ _; simp
  | cons p l ih =>
    intro st hH hL
    rw [List.foldl_cons]
    cases hp : p.isHigh with
    | true =>
      have hs : st.lastHigh.isSome = true := by
        rcases hH with h | h
        · exact h
        · exact absurd (h p (List.mem_cons_self p l)) (by simp [hp])
      obtain ⟨lh, hlh⟩ := Option.isSome_iff_exists.mp hs
      rw [structStep_high_char data st p lh hp hlh]
      have hres := ih { st with lastHigh := some p, points := st.points ++
          [⟨(nth data p.index).time, p.price,
            if lh.price < p.price then StructKind.HH else StructKind.LH,
            Direction.Bearish⟩] }
        (Or.inl rfl)
        (by
          rcases hL with h | h
          · exact Or.inl h
          · exact Or.inr fun q hq => h q (List.mem_cons_of_mem p hq))
      rw [hres]
      simp
      omega
    | false =>
      have hs : st.lastLow.isSome = true := by
        rcases hL with h | h
        · exact h
        · exact absurd (h p (List.mem_cons_self p l)) (by simp [hp])
      obtain ⟨ll, hll⟩ := Option.isSome_iff_exists.mp hs
      rw [structStep_low_char data st p ll hp hll]
      have hres := ih { st with lastLow := some p, points := st.points ++
          [⟨(nth data p.index).time, p.price,
            if p.price < ll.price then StructKind.LL else StructKind.HL,
            Direction.Bullish⟩] }
        (by
          rcases hH with h | h
          · exact Or.inl h
          · exact Or.inr fun q hq => h q (List.mem_cons_of_mem p hq))
        (Or.inl rfl)
      rw [hres]
      simp
      omega

/-- C2 (amended): the trackers are pre-seeded with the first pivot of each kind
before the merged scan, so the seed-skip branch never fires: every pivot emits
exactly one StructurePoint (output length = pivot-high count + pivot-low
count), and whenever the tracker of the pivot's kind holds a prior pivot the
emitted point is HH/LH (resp. LL/HL) by strict price comparison against it,
with the tracker updated regardless of the comparison's outcome. -/
theorem c2_every_pivot_emits :
    (∀ (data : List CandleData) (w : Nat),
      (detectStructure data w).length =
        (pivotHighs data w).length + (pivotLows data w).length) ∧
    (∀ (data : List CandleData) (st : StructState) (p lh : PivotPt),
      p.isHigh = true → st.lastHigh = some lh →
      structStep data st p = { st with lastHigh := some p, points := st.points ++
        [⟨(nth data p.index).time, p.price,
          if lh.price < p.price then StructKind.HH else StructKind.LH,
          Direction.Bearish⟩] }) ∧
    (∀ (data : List CandleData) (st : StructState) (p ll : PivotPt),
      p.isHigh = false → st.lastLow = some ll →
      structStep data st p = { st with lastLow := some p, points := st.points ++
        [⟨(nth data p.index).time, p.price,
          if p.price < ll.price then StructKind.LL else StructKind.HL,
          Direction.Bullish⟩] }) := by
  refine ⟨?_, structStep_high_char, structStep_low_char⟩
  intro data w
  unfold detectStructure
  have hH : ((pivotHighs data w).head?.isSome = true) ∨
      ∀ p ∈ allPivots data w, p.isHigh = false := by
    cases hphs : pivotHighs data w with
    | nil =>
      right
      intro p hp
      have hp' : p ∈ pivotHighs data w ++ pivotLows data w :=
        (List.perm_insertionSort _ _).mem_iff.mp hp
      rw [hphs, List.nil_append] at hp'
      obtain ⟨i, _, rfl⟩ := List.mem_map.mp hp'
      rfl
    | cons a as => left; rfl
  have hL : ((pivotLows data w).head?.isSome = true) ∨
      ∀ p ∈ allPivots data w, p.isHigh = true := by
    cases hpls : pivotLows data w with
    | nil =>
      right
      intro p hp
      have hp' : p ∈ pivotHighs data w ++ pivotLows data w :=
        (List.perm_insertionSort _ _).mem_iff.mp hp
      rw [hpls, List.append_nil] at hp'
      obtain ⟨i, _, rfl⟩ := List.mem_map.mp hp'
      rfl
    | cons a as => left; rfl
  have := structStep_foldl_length data (allPivots data w)
    ⟨(pivotHighs data w).head?, (pivotLows data w).head?, []⟩ hH hL
  rw [this]
  simp [allPivots, List.length_insertionSort]

unseal Rat.add Rat.sub Rat.mul Rat.inv in
/-- C2 witness: the first pivot high of `data11` is processed against the
pre-seeded tracker holding that same pivot, so the strict comparison fails and
an LH point is emitted. -/
theorem c2_every_pivot_emits_witness :
    structStep data11 ⟨some pv5, none, []⟩ pv5 =
      ⟨some pv5, none, [⟨5, 6, StructKind.LH, Direction.Bearish⟩]⟩ := by
  have h := c2_every_pivot_emits.2.1 data11 ⟨some pv5, none, []⟩ pv5 pv5 rfl rfl
  rw [h]
  decide

-- ### C3 — equity curve length and Pending contribution

unseal Rat.add Rat.sub Rat.mul Rat.inv in
/-- C3 counterexample: a single signal that stays Pending (neither boundary
touched before the data ends) still appends a running-balance entry, so the
curve is [100000, 100000] with 0 wins and 0 losses and its length is not
1 + wins + losses. -/
theorem c3_counterexample :
    (performBacktest pendData [pendSig]).1.equityCurve = [100000, 100000] ∧
    (performBacktest pendData [pendSig]).1.wins = 0 ∧
    (performBacktest pendData [pendSig]).1.losses = 0 ∧
    ((performBacktest pendData [pendSig]).2.map fun s =>
      (s.backtestResult, s.backtestPnL)) = [(some BTResult.PENDING, some 0)] ∧
    ¬ ((performBacktest pendData [pendSig]).1.equityCurve.length =
        1 + (performBacktest pendData [pendSig]).1.wins +
          (performBacktest pendData [pendSig]).1.losses) := by
  decide

theorem resolveSignal_trichotomy (sig : EntrySignal) (bars : List CandleData) :
    resolveSignal sig bars = (BTResult.WIN, 2000) ∨
    resolveSignal sig bars = (BTResult.LOSS, -1000) ∨
    resolveSignal sig bars = (BTResult.PENDING, 0) := by
  induction bars with
  | nil => right; right; rfl
  | cons c rest ih =>
    rw [resolveSignal_cons_eq]
    by_cases h1 : stopTouched sig c = true
    · right; left; rw [if_pos h1]
    · rw [if_neg h1]
      by_cases h2 : targetTouched sig c = true
      · left; rw [if_pos h2]
      · rw [if_neg h2]; exact ih

theorem bt_foldl_curve_length (data : List CandleData) (sigs : List EntrySignal) :
    ∀ st : BTState,
      ((sigs.foldl (backtestStep data) st).equityCurve.length =
        st.equityCurve.length +
          sigs.countP fun s => (data.findIdx? fun d => decide (d.time = s.time)).isSome) := by
  induction sigs with
  | nil => intro st; simp
  | cons s sigs ih =>
    intro st
    rw [List.foldl_cons, ih, List.countP_cons]
    have hstep : (backtestStep data st s).equityCurve.length =
        st.equityCurve.length +
          (if (data.findIdx? fun d => decide (d.time = s.time)).isSome then 1 else 0) := by
      unfold backtestStep
      cases hidx : data.findIdx? fun d => decide (d.time = s.time) with
      | none => simp [hidx]
      | some k => simp [hidx]
    rw [hstep]
    omega

theorem bt_foldl_head (data : List CandleData) (sigs : List EntrySignal) :
    ∀ (st : BTState) (r : List Int), st.equityCurve = 100000 :: r →
      ∃ r', (sigs.foldl (backtestStep data) st).equityCurve = 100000 :: r' := by
  induction sigs with
  | nil => intro st r h; exact ⟨r, h⟩
  | cons s sigs ih =>
    intro st r h
    rw [List.foldl_cons]
    unfold backtestStep
    cases hidx : data.findIdx? fun d => decide (d.time = s.time) with
    | none => exact ih _ r h
    | some k =>
      refine ih _ (r ++ [st.currentBalance +
        (resolveSignal s (data.drop (k + 1))).2]) ?_
      simp [h]

theorem bt_foldl_pnl (data : List CandleData) (sigs : List EntrySignal) :
    ∀ st : BTState,
      st.netPnL = 2000 * (st.wins : Int) - 1000 * (st.losses : Int) →
      (sigs.foldl (backtestStep data) st).netPnL =
        2000 * ((sigs.foldl (backtestStep data) st).wins : Int) -
          1000 * ((sigs.foldl (backtestStep data) st).losses : Int) := by
  induction sigs with
  | nil => intro st h; exact h
  | cons s sigs ih =>
    intro st h
    rw [List.foldl_cons]
    refine ih _ ?_
    unfold backtestStep
    cases hidx : data.findIdx? fun d => decide (d.time = s.time) with
    | none => simpa using h
    | some k =>
      rcases resolveSignal_trichotomy s (data.drop (k + 1)) with hr | hr | hr <;>
        simp [hidx, hr, h] <;> omega

/-- C3 (amended): the equity curve starts at exactly 100000 and appends one
running-balance entry per signal whose anchor bar is found in the series —
including Pending signals, which append the unchanged balance — so its length
is 1 + the number of located signals, not 1 + wins + losses; resolved trades
are the only contributors to net PnL (netPnL = 2000·wins − 1000·losses, so a
Pending signal contributes 0 to PnL, wins and losses). -/
theorem c3_equity_curve_per_signal (data : List CandleData) (signals : List EntrySignal) :
    (performBacktest data signals).1.equityCurve.head? = some 100000 ∧
    (performBacktest data signals).1.equityCurve.length =
      1 + signals.countP (fun s => (data.findIdx? fun d => decide (d.time = s.time)).isSome) ∧
    (performBacktest data signals).1.netPnL =
      2000 * ((performBacktest data signals).1.wins : Int) -
        1000 * ((performBacktest data signals).1.losses : Int) := by
  refine ⟨?_, ?_, ?_⟩
  · obtain ⟨r', hr⟩ := bt_foldl_head data signals initBTState [] rfl
    show (signals.foldl (backtestStep data) initBTState).equityCurve.head? = some 100000
    rw [hr]
    rfl
  · show (signals.foldl (backtestStep data) initBTState).equityCurve.length = _
    rw [bt_foldl_curve_length data signals initBTState]
    rfl
  · exact bt_foldl_pnl data signals initBTState rfl

-- ### C4 — emission gate and cooldown

set_option maxRecDepth 100000 in
unseal Rat.add Rat.sub Rat.mul Rat.inv in
/-- C4 counterexample: with bars exactly 600 seconds apart, bar 101 satisfies
score ≥ 4, bullish bias with a bullish-zone touch, and exactly 600 seconds have
elapsed since the last emitted signal (61000) — yet no signal is emitted at
61600, because the gate requires strictly more than 600 seconds. -/
theorem c4_counterexample :
    ((detectEntries (mkD 600) [obC4] [] "1h").map fun s => s.time) = [61000, 62200] ∧
    (confluencesAt (mkD 600) [obC4] [] 101).1 = 4 ∧
    isBullishAt (mkD 600) 101 = true ∧
    (touchingBullOB [obC4] (nth (mkD 600) 101)).isSome = true ∧
    (nth (mkD 600) 101).time - 61000 = 600 := by
  decide

theorem entriesStep_eq (data : List CandleData) (obs : List OrderBlock) (fvgs : List FVG)
    (tf : String) (st : Int × List EntrySignal) (i : Nat) :
    entriesStep data obs fvgs tf st i =
      if 4 ≤ (confluencesAt data obs fvgs i).1 ∧ 600 < (nth data i).time - st.1 then
        if isBullishAt data i = true ∧
            ((touchingBullOB obs (nth data i)).isSome ∨
              (touchingBullFVG fvgs (nth data i)).isSome) then
          ((nth data i).time, st.2 ++ [mkLong data obs tf i (confluencesAt data obs fvgs i)
            (determinePO3 (nth data i) (getSession (getUTCHours (nth data i).time)))])
        else if isBullishAt data i = false ∧
            ((touchingBearOB obs (nth data i)).isSome ∨
              (touchingBearFVG fvgs (nth data i)).isSome) then
          ((nth data i).time, st.2 ++ [mkShort data obs tf i (confluencesAt data obs fvgs i)
            (determinePO3 (nth data i) (getSession (getUTCHours (nth data i).time)))])
        else st
      else st := rfl

theorem entries_foldl_chain (data : List CandleData) (obs : List OrderBlock)
    (fvgs : List FVG) (tf : String) (idxs : List Nat) :
    ∀ st : Int × List EntrySignal,
      List.Chain' (fun a b => 600 < b.time - a.time) st.2 →
      (∀ x, st.2.getLast? = some x → x.time = st.1) →
      List.Chain' (fun a b => 600 < b.time - a.time)
        ((idxs.foldl (entriesStep data obs fvgs tf) st).2) := by
  induction idxs with
  | nil => intro st hch _; exact hch
  | cons i idxs ih =>
    intro st hch hlast
    rw [List.foldl_cons, entriesStep_eq]
    by_cases hg : 4 ≤ (confluencesAt data obs fvgs i).1 ∧ 600 < (nth data i).time - st.1
    · rw [if_pos hg]
      by_cases hb : isBullishAt data i = true ∧
          ((touchingBullOB obs (nth data i)).isSome ∨
            (touchingBullFVG fvgs (nth data i)).isSome)
      · rw [if_pos hb]
        apply ih
        · show List.Chain' _ (st.2 ++ [_])
          refine List.Chain'.append hch (List.chain'_singleton _) ?_
          intro x hx y hy
          have hxt := hlast x (Option.mem_def.mp hx)
          have hy' : mkLong data obs tf i (confluencesAt data obs fvgs i)
              (determinePO3 (nth data i) (getSession (getUTCHours (nth data i).time))) = y := by
            simpa using Option.mem_def.mp hy
          show 600 < y.time - x.time
          rw [← hy', hxt]
          exact hg.2
        · intro x hx
          have hlast' : (st.2 ++ [mkLong data obs tf i (confluencesAt data obs fvgs i)
              (determinePO3 (nth data i) (getSession (getUTCHours (nth data i).time)))]).getLast? =
              some (mkLong data obs tf i (confluencesAt data obs fvgs i)
                (determinePO3 (nth data i) (getSession (getUTCHours (nth data i).time)))) := by
            simp
          rw [hlast'] at hx
          cases hx
          rfl
      · rw [if_neg hb]
        by_cases hb2 : isBullishAt data i = false ∧
            ((touchingBearOB obs (nth data i)).isSome ∨
              (touchingBearFVG fvgs (nth data i)).isSome)
        · rw [if_pos hb2]
          apply ih
          · show List.Chain' _ (st.2 ++ [_])
            refine List.Chain'.append hch (List.chain'_singleton _) ?_
            intro x hx y hy
            have hxt := hlast x (Option.mem_def.mp hx)
            have hy' : mkShort data obs tf i (confluencesAt data obs fvgs i)
                (determinePO3 (nth data i) (getSession (getUTCHours (nth data i).time))) = y := by
              simpa using Option.mem_def.mp hy
            show 600 < y.time - x.time
            rw [← hy', hxt]
            exact hg.2
          · intro x hx
            have hlast' : (st.2 ++ [mkShort data obs tf i (confluencesAt data obs fvgs i)
                (determinePO3 (nth data i) (getSession (getUTCHours (nth data i).time)))]).getLast? =
                some (mkShort data obs tf i (confluencesAt data obs fvgs i)
                  (determinePO3 (nth data i) (getSession (getUTCHours (nth data i).time)))) := by
              simp
            rw [hlast'] at hx
            cases hx
            rfl
        · rw [if_neg hb2]
          exact ih st hch hlast
    · rw [if_neg hg]
      exact ih st hch hlast

set_option maxRecDepth 100000 in
unseal Rat.add Rat.sub Rat.mul Rat.inv in
/-- C4 (amended): a signal is emitted at bar i exactly when the score is ≥ 4,
strictly more than 600 candle-time seconds have elapsed since the last emitted
signal's timestamp, and the direction requirement holds; consequently any two
consecutive emitted signals are more than 600 seconds apart, and two qualifying
conditions less than 600 seconds apart (here 599) produce exactly one
EntrySignal, timestamped at the first occurrence. -/
theorem c4_cooldown_gate :
    (∀ (data : List CandleData) (obs : List OrderBlock) (fvgs : List FVG) (tf : String),
      List.Chain' (fun a b => 600 < b.time - a.time) (detectEntries data obs fvgs tf)) ∧
    (∀ (data : List CandleData) (obs : List OrderBlock) (fvgs : List FVG) (tf : String)
        (st : Int × List EntrySignal) (i : Nat),
      (entriesStep data obs fvgs tf st i).2.length = st.2.length + 1 ∨
        entriesStep data obs fvgs tf st i = st) ∧
    (∀ (data : List CandleData) (obs : List OrderBlock) (fvgs : List FVG) (tf : String)
        (st : Int × List EntrySignal) (i : Nat),
      (entriesStep data obs fvgs tf st i).2.length = st.2.length + 1 ↔
        (4 ≤ (confluencesAt data obs fvgs i).1 ∧ 600 < (nth data i).time - st.1 ∧
          ((isBullishAt data i = true ∧
             ((touchingBullOB obs (nth data i)).isSome ∨
               (touchingBullFVG fvgs (nth data i)).isSome)) ∨
           (isBullishAt data i = false ∧
             ((touchingBearOB obs (nth data i)).isSome ∨
               (touchingBearFVG fvgs (nth data i)).isSome))))) ∧
    ((detectEntries (mkD 599) [obC4] [] "1h").map fun s => s.time) = [60900, 62098] := by
  refine ⟨?_, ?_, ?_, by decide⟩
  · intro data obs fvgs tf
    unfold detectEntries
    apply entries_foldl_chain data obs fvgs tf (entryIndices data) (0, [])
    · exact List.chain'_nil
    · intro x hx
      simp at hx
  · intro data obs fvgs tf st i
    rw [entriesStep_eq]
    by_cases hg : 4 ≤ (confluencesAt data obs fvgs i).1 ∧ 600 < (nth data i).time - st.1
    · rw [if_pos hg]
      by_cases hb : isBullishAt data i = true ∧
          ((touchingBullOB obs (nth data i)).isSome ∨
            (touchingBullFVG fvgs (nth data i)).isSome)
      · rw [if_pos hb]; left; simp
      · rw [if_neg hb]
        by_cases hb2 : isBullishAt data i = false ∧
            ((touchingBearOB obs (nth data i)).isSome ∨
              (touchingBearFVG fvgs (nth data i)).isSome)
        · rw [if_pos hb2]; left; simp
        · rw [if_neg hb2]; right; rfl
    · rw [if_neg hg]; right; rfl
  · intro data obs fvgs tf st i
    rw [entriesStep_eq]
    by_cases hg : 4 ≤ (confluencesAt data obs fvgs i).1 ∧ 600 < (nth data i).time - st.1
    · rw [if_pos hg]
      by_cases hb : isBullishAt data i = true ∧
          ((touchingBullOB obs (nth data i)).isSome ∨
            (touchingBullFVG fvgs (nth data i)).isSome)
      · rw [if_pos hb]
        simp only [List.length_append, List.length_cons, List.length_nil]
        exact ⟨fun _ => ⟨hg.1, hg.2, Or.inl hb⟩, fun _ => trivial⟩
      · rw [if_neg hb]
        by_cases hb2 : isBullishAt data i = false ∧
            ((touchingBearOB obs (nth data i)).isSome ∨
              (touchingBearFVG fvgs (nth data i)).isSome)
        · rw [if_pos hb2]
          simp only [List.length_append, List.length_cons, List.length_nil]
          exact ⟨fun _ => ⟨hg.1, hg.2, Or.inr hb2⟩, fun _ => trivial⟩
        · rw [if_neg hb2]
          constructor
          · intro h; omega
          · rintro ⟨_, _, hd | hd⟩
            · exact absurd hd hb
            · exact absurd hd hb2
    · rw [if_neg hg]
      constructor
      · intro h; omega
      · rintro ⟨h1, h2, _⟩
        exact absurd ⟨h1, h2⟩ hg

-- ### C9 — daily performance aggregation

theorem dayAccum_foldl (l : List EntrySignal) :
    ∀ g lo n : Int,
      l.foldl dayAccum (g, lo, n) =
        (g + 2000 * (l.countP fun t => decide (t.backtestResult = some BTResult.WIN)),
         lo + 1000 * (l.countP fun t => ! decide (t.backtestResult = some BTResult.WIN)),
         n + 2000 * (l.countP fun t => decide (t.backtestResult = some BTResult.WIN)) -
           1000 * (l.countP fun t => ! decide (t.backtestResult = some BTResult.WIN))) := by
  induction l with
  | nil => intro g lo n; simp
  | cons t l ih =>
    intro g lo n
    rw [List.foldl_cons]
    by_cases h : t.backtestResult = some BTResult.WIN
    · rw [show dayAccum (g, lo, n) t = (g + 2000, lo, n + 2000) from by
        simp [dayAccum, h], ih]
      rw [List.countP_cons, List.countP_cons]
      simp only [h, decide_True, Bool.not_true, if_true, if_false, Prod.mk.injEq]
      refine ⟨by push_cast; ring, by push_cast; ring, by push_cast; ring⟩
    · rw [show dayAccum (g, lo, n) t = (g, lo + 1000, n - 1000) from by
        simp [dayAccum, h], ih]
      rw [List.countP_cons, List.countP_cons]
      simp only [h, decide_False, Bool.not_false, if_true, if_false, Prod.mk.injEq]
      refine ⟨by push_cast; ring, by push_cast; ring, by push_cast; ring⟩

/-- C9: the daily aggregator considers only resolved (Win/Loss) signals, keeps
at most 3 dates (listed in descending date-key order), caps each date's trades
at the 10 most recent by timestamp (listed in descending time order), and
computes totalGain = 2000·winCount, totalLoss = 1000·lossCount and
netPnL = totalGain − totalLoss; in particular 15 resolved signals on a single
date yield one DailyStat with tradeCount = 10 holding the 10 most recent
timestamps.  (The local-calendar-date key of the TS `toLocaleDateString` is
abstracted as the `dateOf` parameter.) -/
theorem c9_daily_aggregation :
    (∀ (dateOf : Int → Nat) (entries : List EntrySignal),
      (dailyStats dateOf entries).length ≤ 3) ∧
    (∀ (dateOf : Int → Nat) (entries : List EntrySignal),
      List.Pairwise (fun a b => b ≤ a) ((dailyStats dateOf entries).map fun st => st.date)) ∧
    (∀ (dateOf : Int → Nat) (entries : List EntrySignal) (st : DailyStat),
      st ∈ dailyStats dateOf entries →
      st.tradeCount ≤ 10 ∧ st.tradeCount = st.trades.length ∧
      (∀ t ∈ st.trades,
        t.backtestResult = some BTResult.WIN ∨ t.backtestResult = some BTResult.LOSS) ∧
      st.totalGain =
        2000 * (st.trades.countP fun t => decide (t.backtestResult = some BTResult.WIN)) ∧
      st.totalLoss =
        1000 * (st.trades.countP fun t => ! decide (t.backtestResult = some BTResult.WIN)) ∧
      st.netPnL = st.totalGain - st.totalLoss ∧
      List.Pairwise (fun a b => b.time ≤ a.time) st.trades) ∧
    ((dailyStats dOne sig15).map fun st =>
      ((st.trades.map fun t => t.time), st.tradeCount)) =
        [([14, 13, 12, 11, 10, 9, 8, 7, 6, 5], 10)] := by
  refine ⟨?_, ?_, ?_, by decide⟩
  · intro dateOf entries
    unfold dailyStats
    simp only [List.length_map]
    exact List.length_take_le _ _
  · intro dateOf entries
    unfold dailyStats
    rw [List.map_map, List.pairwise_map]
    haveI ht : IsTotal Nat (fun a b => b ≤ a) := ⟨fun a b => le_total b a⟩
    haveI htr : IsTrans Nat (fun a b => b ≤ a) := ⟨fun a b c hab hbc => le_trans hbc hab⟩
    have hsorted := List.sorted_insertionSort (fun a b : Nat => b ≤ a)
      ((entries.filter resolvedB).map fun e => dateOf e.time).dedup
    have htake := List.Pairwise.sublist (List.take_sublist 3 _) hsorted
    exact htake
  · intro dateOf entries st hst
    unfold dailyStats at hst
    simp only [List.mem_map] at hst
    obtain ⟨d, hd, rfl⟩ := hst
    haveI ht : IsTotal EntrySignal (fun a b => b.time ≤ a.time) :=
      ⟨fun a b => le_total b.time a.time⟩
    haveI htr : IsTrans EntrySignal (fun a b => b.time ≤ a.time) :=
      ⟨fun a b c hab hbc => le_trans hbc hab⟩
    refine ⟨List.length_take_le _ _, rfl, ?_, ?_, ?_, ?_, ?_⟩
    · intro t htm
      have h1 : t ∈ ((entries.filter resolvedB).filter
          fun e => decide (dateOf e.time = d)).insertionSort fun a b => b.time ≤ a.time :=
        List.mem_of_mem_take htm
      have h2 := (List.perm_insertionSort _ _).mem_iff.mp h1
      have h3 := (List.mem_filter.mp h2).1
      have h4 := (List.mem_filter.mp h3).2
      unfold resolvedB at h4
      simp only [Bool.or_eq_true, decide_eq_true_eq] at h4
      exact h4
    · dsimp only
      rw [dayAccum_foldl]
      simp
    · dsimp only
      rw [dayAccum_foldl]
      simp
    · dsimp only
      simp only [dayAccum_foldl]
      ring
    · dsimp only
      have hsorted := List.sorted_insertionSort (fun a b : EntrySignal => b.time ≤ a.time)
        ((entries.filter resolvedB).filter fun e => decide (dateOf e.time = d))
      exact List.Pairwise.sublist (List.take_sublist 10 _) hsorted

/-- C9 witness: the per-date facts applied to the concrete 15-signal single-date
run (whose only DailyStat is its head element). -/
theorem c9_daily_aggregation_witness :
    ((dailyStats dOne sig15).getD 0 dfltStat).tradeCount ≤ 10 :=
  (c9_daily_aggregation.2.2.1 dOne sig15 ((dailyStats dOne sig15).getD 0 dfltStat)
    (by decide)).1
